import Mathlib

/-!
Shallow embedding of the HTTP-backed policy loader of the `opa_lambda`
repository (package `policyloader`, file `s3.go`, the `PolicyServiceLoader`
part), together with theorems settling the specification claims.

Modelling conventions:
* `time.Time` values and `time.Duration` values are modelled as `Int`
  (nanoseconds, as in Go, where `time.Second = 10^9`).
* Byte strings (HTTP bodies, file contents) are modelled as Lean `String`s
  over their character lists; byte-level truncation (`io.LimitReader(_, 1024)`)
  becomes `truncateBytes 1024` and `strings.TrimSpace` becomes `trimSpace`.
* Go errors are modelled as `Except String` with the error message carried
  as a `String` built the way the Go code builds it (`resp.Status` is
  abbreviated to the numeric status code rendered with `toString`).
* The outside world observed during one `LoadPolicy` call (the single HTTP
  round trip, the clock reading and random draw used by `nextInterval`, and
  the filesystem contents used by `readPersistedPolicy`) is passed in
  explicitly; `rand.Int63n n` applied to an arbitrary draw `r` is modelled
  as `r % n` (Euclidean remainder, which lies in `[0, n)` for `n > 0`),
  and `rand.Int63n` panicking on `n ≤ 0` is modelled separately by
  `rand_Int63n` returning `none` there.
* A cancelled or deadline-exceeded context makes `client.Do` return an
  error in Go; this shows up here as the `HttpOutcome.netError` case.
-/

namespace OpaLambda

/-- One nanosecond per unit, as in Go: `time.Second`. -/
def timeSecond : Int := 1000000000

/-- The replacement of the dotted-name separator by the path separator. -/
def dotToSlash (c : Char) : Char := if c = '.' then '/' else c

/-- Modelled from the spec: the Policy Key Codec `to_path` / the repository
function `KeyToFilename`, whose definition is not among the provided source
files (only its callers and tests are). Per the spec it fails with an
invalid-name error when the name is empty or contains a character illegal
for a path segment (modelled as the path separator), and otherwise replaces
each `.` of the dotted name with a path separator and appends the fixed
extension `.rego`. This agrees with the in-repository tests, where
`KeyToFilename "example" = "example.rego"`. -/
def KeyToFilename (name : String) : Except String String :=
  if name = "" ∨ '/' ∈ name.data then
    .error "invalid policy name"
  else
    .ok (⟨name.data.map dotToSlash⟩ ++ ".rego")

/-- Go struct `PolicyServiceConfig` (s3.go). -/
structure PolicyServiceConfig where
  serviceURL : String
  resourcePfx : String   -- Go field: ResourcePrefix
  bearerToken : String
  persist : Bool
  cacheDir : String
  pollMin : Int
  pollMax : Int
  httpTimeout : Int

/-- Go struct `PolicyServiceLoader` (s3.go): the configuration after the
normalisation performed by `NewPolicyServiceLoader`, plus the derived
fields. The HTTP client is represented only by its timeout, which equals
the normalised `cfg.httpTimeout`. -/
structure PolicyServiceLoader where
  cfg : PolicyServiceConfig
  baseURL : String
  resourcePfx : String   -- Go field: resourcePrefix
  cacheDir : String

/-- Go struct `policyCacheEntry` (s3.go). The zero value (all fields empty /
zero / false) is the state `getEntry` creates for a never-requested name. -/
structure Entry where
  module : String
  etag : String
  nextSync : Int
  loaded : Bool
deriving DecidableEq, Repr

/-- The zero value of `policyCacheEntry`, as allocated by `getEntry`. -/
def entry0 : Entry := ⟨"", "", 0, false⟩

/-- Go `strings.TrimRight s "/"`. -/
def trimRightSlash (s : String) : String :=
  ⟨(s.data.reverse.dropWhile (fun c => c = '/')).reverse⟩

/-- Go `strings.Trim s "/"`. -/
def trimSlash (s : String) : String :=
  ⟨((s.data.dropWhile (fun c => c = '/')).reverse.dropWhile
      (fun c => c = '/')).reverse⟩

/-- Go `strings.TrimSpace` (leading and trailing whitespace removed). -/
def trimSpace (s : String) : String :=
  ⟨((s.data.dropWhile Char.isWhitespace).reverse.dropWhile
      Char.isWhitespace).reverse⟩

/-- Go `io.ReadAll(io.LimitReader(body, n))`: the body truncated to its
first `n` bytes (bytes modelled as characters). -/
def truncateBytes (n : Nat) (s : String) : String := ⟨s.data.take n⟩

/-- Go `filepath.Join a b` for a nonempty relative second component
(as used for `cacheDir`/`filename`). -/
def joinPath (a b : String) : String := a ++ "/" ++ b

/-- Go function `NewPolicyServiceLoader` (s3.go lines 148-180). `tmpDir`
stands for `os.TempDir()`, an environment input used only for the default
cache directory. -/
def NewPolicyServiceLoader (tmpDir : String) (cfg0 : PolicyServiceConfig) :
    Except String PolicyServiceLoader :=
  if cfg0.serviceURL = "" then
    .error "policy service URL is required"
  else
    let cfg1 := { cfg0 with serviceURL := trimRightSlash cfg0.serviceURL }
    let cfg2 := if cfg1.pollMin ≤ 0 then { cfg1 with pollMin := 10 * timeSecond } else cfg1
    let cfg3 := if cfg2.pollMax < cfg2.pollMin then { cfg2 with pollMax := cfg2.pollMin } else cfg2
    let cfg4 := if cfg3.httpTimeout ≤ 0 then { cfg3 with httpTimeout := 15 * timeSecond } else cfg3
    let cacheDir := if cfg4.cacheDir = "" then joinPath (joinPath tmpDir ".opa") "policies" else cfg4.cacheDir
    .ok { cfg := cfg4
          baseURL := cfg4.serviceURL
          resourcePfx := trimSlash cfg4.resourcePfx
          cacheDir := cacheDir }

/-- Go `rand.Int63n n`: panics (here: `none`) when `n ≤ 0`, otherwise a
uniform draw in `[0, n)`; the draw is derived from the arbitrary seed `r`
as `r % n`. -/
def rand_Int63n (n r : Int) : Option Int :=
  if n ≤ 0 then none else some (r % n)

/-- Go method `nextInterval` (s3.go lines 323-330): the next revalidation
instant, computed from the clock reading `tNow` (`time.Now()` at the call)
and the random seed `r`. Total function: the `rand.Int63n` argument
`pollMax - pollMin` is positive whenever the branch drawing it is taken. -/
def nextInterval (l : PolicyServiceLoader) (tNow r : Int) : Int :=
  tNow + l.cfg.pollMin +
    (if l.cfg.pollMax > l.cfg.pollMin then r % (l.cfg.pollMax - l.cfg.pollMin) else 0)

/-- The outcome of the single HTTP round trip of `refreshPolicy`:
either `client.Do` fails (network error, including a cancelled or
deadline-exceeded context), or a response arrives with a status code, an
`Etag` header value, a body, and a flag telling whether reading the body
to its end fails. -/
inductive HttpOutcome where
  | netError (msg : String)
  | response (status : Nat) (etag : String) (body : String) (readErr : Bool)

/-- The request path computed by `refreshPolicy` (s3.go lines 234-242)
before the base URL is prepended: the filename from `KeyToFilename`,
prefixed by the configured resource-prefix segment when that is nonempty. -/
def requestPath (l : PolicyServiceLoader) (name : String) : Except String String :=
  (KeyToFilename name).map (fun filename =>
    if l.resourcePfx = "" then filename else l.resourcePfx ++ "/" ++ filename)

/-- Go method `refreshPolicy` (s3.go lines 233-296) as a pure function of
the entry and the observed world. Returns the error, or the updated entry
together with the persistence attempt (`persistPolicy` target path and
contents) when one is made; on an error return the Go code has not mutated
the entry. `tNow` and `r` feed the at-most-one `nextInterval` call. -/
def refreshPolicy (l : PolicyServiceLoader) (name : String) (entry : Entry)
    (o : HttpOutcome) (tNow r : Int) :
    Except String (Entry × Option (String × String)) :=
  match KeyToFilename name with
  | .error e => .error e
  | .ok filename =>
    match o with
    | .netError msg => .error ("failed to download policy " ++ name ++ ": " ++ msg)
    | .response status etagHdr body readErr =>
      if status = 304 then
        if entry.loaded = false then
          .error "policy not downloaded yet; received 304 Not Modified"
        else
          .ok ({ entry with nextSync := nextInterval l tNow r }, none)
      else if status = 404 then
        .error ("policy " ++ name ++ " not found (404)")
      else if status ≠ 200 then
        .error ("policy download failed: " ++ toString status ++ " "
                  ++ trimSpace (truncateBytes 1024 body))
      else if readErr then
        .error "failed to read policy body"
      else
        .ok ({ module := body
               etag := etagHdr
               nextSync := nextInterval l tNow r
               loaded := true },
             if l.cfg.persist then some (joinPath l.cacheDir filename, body) else none)

/-- Go method `readPersistedPolicy` (s3.go lines 310-321): derive the
filename, then read the file under the cache directory; `fs` is the
filesystem contents (`none` meaning `os.ReadFile` fails at that path). -/
def readPersistedPolicy (l : PolicyServiceLoader) (name : String)
    (fs : String → Option String) : Except String String :=
  match KeyToFilename name with
  | .error e => .error e
  | .ok filename =>
    match fs (joinPath l.cacheDir filename) with
    | some contents => .ok contents
    | none => .error "read failed"

/-- The world observed by one `LoadPolicy` call: the HTTP outcome, the
clock reading and random seed consumed by the at most one `nextInterval`
call on any execution path, and the filesystem contents. -/
structure LoadWorld where
  outcome : HttpOutcome
  tNow : Int
  r : Int
  fs : String → Option String

/-- Go method `LoadPolicy` of `PolicyServiceLoader` (s3.go lines 183-213)
as a pure function: given the entry for `policyName` (as produced by
`getEntry`), the clock reading `now` at the staleness check, and the world,
return the result handed to the caller together with the entry state after
the call. -/
def LoadPolicy (l : PolicyServiceLoader) (name : String) (entry : Entry)
    (now : Int) (w : LoadWorld) : Except String String × Entry :=
  if entry.loaded = true ∧ now < entry.nextSync then
    (.ok entry.module, entry)
  else
    match refreshPolicy l name entry w.outcome w.tNow w.r with
    | .ok (entry', _) => (.ok entry'.module, entry')
    | .error e =>
      if entry.loaded = true then
        (.ok entry.module, entry)
      else if l.cfg.persist = true then
        match readPersistedPolicy l name w.fs with
        | .ok cached =>
          (.ok cached,
           { module := cached
             loaded := true
             etag := ""
             nextSync := nextInterval l w.tNow w.r })
        | .error _ => (.error e, entry)
      else
        (.error e, entry)

/-! Concrete fixtures used to instantiate the theorems below. `cfgA` mirrors
the configuration of the repository test `TestPolicyServiceLoaderCachesWithETag`
(resource prefix `policies`, persistence off); `cfgP` the persistence-enabled
variant of `TestPolicyServiceLoaderUsesPersistedPolicy`. -/

def cfgA : PolicyServiceConfig :=
  { serviceURL := "http://svc", resourcePfx := "policies", bearerToken := ""
    persist := false, cacheDir := "/cache", pollMin := 10, pollMax := 30
    httpTimeout := 5 }

def loaderA : PolicyServiceLoader :=
  { cfg := cfgA, baseURL := "http://svc", resourcePfx := "policies", cacheDir := "/cache" }

def cfgP : PolicyServiceConfig := { cfgA with persist := true }

def loaderP : PolicyServiceLoader :=
  { cfg := cfgP, baseURL := "http://svc", resourcePfx := "policies", cacheDir := "/cache" }

/-- A cache entry that has been loaded before (module `"cached"`, validator
token `"v1"`, next revalidation at instant 50). -/
def entryStale : Entry := ⟨"cached", "v1", 50, true⟩

/-- A filesystem with no readable files. -/
def fsNone : String → Option String := fun _ => none

/-- A filesystem holding exactly the persisted copy of policy `example`
under the cache directory `/cache`. -/
def fsExample : String → Option String :=
  fun p => if p = "/cache/example.rego" then some "persisted text" else none

/-! Injectivity of the policy-name-to-path mapping. -/

lemma dotToSlash_inj_of_ne_slash {a b : Char} (ha : a ≠ '/') (hb : b ≠ '/')
    (h : dotToSlash a = dotToSlash b) : a = b := by
  unfold dotToSlash at h
  by_cases h1 : a = '.' <;> by_cases h2 : b = '.'
  · rw [h1, h2]
  · rw [if_pos h1, if_neg h2] at h; exact absurd h.symm hb
  · rw [if_neg h1, if_pos h2] at h; exact absurd h ha
  · rwa [if_neg h1, if_neg h2] at h

lemma map_dotToSlash_inj : ∀ (l₁ l₂ : List Char), '/' ∉ l₁ → '/' ∉ l₂ →
    l₁.map dotToSlash = l₂.map dotToSlash → l₁ = l₂ := by
  intro l₁
  induction l₁ with
  | nil => intro l₂ _ _ h; cases l₂ <;> simp_all
  | cons a t ih =>
    intro l₂ h1 h2 h
    cases l₂ with
    | nil => simp_all
    | cons b t₂ =>
      simp only [List.map_cons, List.cons.injEq] at h
      have ha : a ≠ '/' := fun hc => h1 (hc ▸ List.mem_cons_self a t)
      have hb : b ≠ '/' := fun hc => h2 (hc ▸ List.mem_cons_self b t₂)
      have hab : a = b := dotToSlash_inj_of_ne_slash ha hb h.1
      have ht : t = t₂ := by
        refine ih t₂ (fun hc => h1 (List.mem_cons_of_mem a hc))
          (fun hc => h2 (List.mem_cons_of_mem b hc)) h.2
      rw [hab, ht]

lemma KeyToFilename_inj {n₁ n₂ f : String}
    (h₁ : KeyToFilename n₁ = .ok f) (h₂ : KeyToFilename n₂ = .ok f) : n₁ = n₂ := by
  unfold KeyToFilename at h₁ h₂
  split at h₁
  · exact absurd h₁ (by simp)
  · split at h₂
    · exact absurd h₂ (by simp)
    · rename_i g₁ g₂
      have e : (⟨n₁.data.map dotToSlash⟩ ++ ".rego" : String)
          = ⟨n₂.data.map dotToSlash⟩ ++ ".rego" := by
        rw [Except.ok.injEq] at h₁ h₂
        rw [h₁, h₂]
      have e2 : n₁.data.map dotToSlash ++ (".rego" : String).data
          = n₂.data.map dotToSlash ++ (".rego" : String).data := by
        have := congrArg String.data e
        simpa [String.data_append] using this
      have e3 : n₁.data.map dotToSlash = n₂.data.map dotToSlash :=
        List.append_cancel_right e2
      push_neg at g₁ g₂
      exact String.ext (map_dotToSlash_inj _ _ g₁.2 g₂.2 e3)

lemma string_append_left_cancel {a b c : String} (h : a ++ b = a ++ c) : b = c := by
  have h2 : a.data ++ b.data = a.data ++ c.data := by
    have := congrArg String.data h
    simpa [String.data_append] using this
  exact String.ext (List.append_cancel_left h2)

/-- C4: the policy-name-to-path mapping — the root segment configured as the
resource prefix, each dot replaced by a path separator, the fixed `.rego`
extension appended, as computed by `refreshPolicy` from `KeyToFilename`
(`requestPath`) — is deterministic (it is a pure function of the name) and
injective over well-formed dotted names, and with the repository's root
segment `policies` it maps `auth.user` to `policies/auth/user.rego`. -/
theorem requestPath_injective_and_example :
    (∀ (l : PolicyServiceLoader) (n₁ n₂ p : String),
        requestPath l n₁ = .ok p → requestPath l n₂ = .ok p → n₁ = n₂) ∧
    requestPath loaderA "auth.user" = .ok "policies/auth/user.rego" := by
  constructor
  · intro l n₁ n₂ p h₁ h₂
    unfold requestPath at h₁ h₂
    cases hk₁ : KeyToFilename n₁ with
    | error e => rw [hk₁] at h₁; exact absurd h₁ (by simp [Except.map])
    | ok f₁ =>
      cases hk₂ : KeyToFilename n₂ with
      | error e => rw [hk₂] at h₂; exact absurd h₂ (by simp [Except.map])
      | ok f₂ =>
        rw [hk₁] at h₁; rw [hk₂] at h₂
        simp only [Except.map, Except.ok.injEq] at h₁ h₂
        by_cases hp : l.resourcePfx = ""
        · rw [if_pos hp] at h₁ h₂
          exact KeyToFilename_inj (h₁ ▸ hk₁) (h₂ ▸ hk₂)
        · rw [if_neg hp] at h₁ h₂
          have hf : f₁ = f₂ := by
            have := h₁.trans h₂.symm
            have h3 : l.resourcePfx ++ ("/" ++ f₁) = l.resourcePfx ++ ("/" ++ f₂) := by
              simpa [String.append_assoc] using this
            exact string_append_left_cancel (string_append_left_cancel h3)
          exact KeyToFilename_inj hk₁ (hf ▸ hk₂)
  · rfl

/-- Witness for C4 at a concrete input. -/
theorem requestPath_injective_and_example_witness :
    requestPath loaderA "auth.user" = .ok "policies/auth/user.rego" ∧
    "auth.user" = "auth.user" :=
  ⟨by rfl,
   requestPath_injective_and_example.1 loaderA "auth.user" "auth.user"
     "policies/auth/user.rego" (by rfl) (by rfl)⟩

/-- C9: every rescheduled next revalidation instant equals the clock reading
plus an interval of the form minimum + offset with `0 ≤ offset`, the offset
drawn from `[0, maximum − minimum)` when maximum exceeds minimum and zero
otherwise; hence the interval is at least the minimum and, when the maximum
exceeds the minimum, strictly below the maximum. -/
theorem nextInterval_bounds (l : PolicyServiceLoader) (tNow r : Int) :
    ∃ off : Int,
      nextInterval l tNow r = tNow + (l.cfg.pollMin + off) ∧
      0 ≤ off ∧
      (l.cfg.pollMin < l.cfg.pollMax → off < l.cfg.pollMax - l.cfg.pollMin) ∧
      (l.cfg.pollMax ≤ l.cfg.pollMin → off = 0) ∧
      l.cfg.pollMin ≤ l.cfg.pollMin + off ∧
      (l.cfg.pollMin < l.cfg.pollMax → l.cfg.pollMin + off < l.cfg.pollMax) := by
  unfold nextInterval
  by_cases h : l.cfg.pollMax > l.cfg.pollMin
  · have hd : 0 < l.cfg.pollMax - l.cfg.pollMin := by omega
    have hnn : 0 ≤ r % (l.cfg.pollMax - l.cfg.pollMin) := Int.emod_nonneg r (by omega)
    have hlt : r % (l.cfg.pollMax - l.cfg.pollMin) < l.cfg.pollMax - l.cfg.pollMin :=
      Int.emod_lt_of_pos r hd
    refine ⟨r % (l.cfg.pollMax - l.cfg.pollMin), by rw [if_pos h]; ring, hnn,
      fun _ => hlt, fun h2 => by omega, by omega, fun _ => by omega⟩
  · exact ⟨0, by rw [if_neg h]; ring, le_refl 0, fun h2 => by omega, fun _ => rfl,
      by omega, fun h2 => by omega⟩

/-- Witness for C9 at a concrete input. -/
theorem nextInterval_bounds_witness :
    ∃ off : Int,
      nextInterval loaderA 100 7 = 100 + (10 + off) ∧
      0 ≤ off ∧
      ((10 : Int) < 30 → off < 30 - 10) ∧
      ((30 : Int) ≤ 10 → off = 0) ∧
      (10 : Int) ≤ 10 + off ∧
      ((10 : Int) < 30 → 10 + off < 30) :=
  nextInterval_bounds loaderA 100 7

/-- C5: a loaded entry whose next revalidation instant lies strictly in the
future is served from memory: `LoadPolicy` returns the cached module text
with no error, the entry unchanged, and the result does not depend on the
world `w` at all — no network request and no filesystem read can influence
or be influenced by the call. -/
theorem loadPolicy_fresh_cache (l : PolicyServiceLoader) (name : String)
    (entry : Entry) (now : Int) (w : LoadWorld)
    (hl : entry.loaded = true) (ht : now < entry.nextSync) :
    LoadPolicy l name entry now w = (.ok entry.module, entry) := by
  unfold LoadPolicy
  rw [if_pos ⟨hl, ht⟩]

/-- Witness for C5 at a concrete input. -/
theorem loadPolicy_fresh_cache_witness :
    entryStale.loaded = true ∧ (40 : Int) < entryStale.nextSync ∧
    LoadPolicy loaderA "example" entryStale 40
      ⟨.netError "connection refused", 0, 0, fsNone⟩ = (.ok "cached", entryStale) :=
  ⟨rfl, by decide,
   loadPolicy_fresh_cache loaderA "example" entryStale 40
     ⟨.netError "connection refused", 0, 0, fsNone⟩ rfl (by decide)⟩

/-! Shared lemmas about the three outcomes of `LoadPolicy` when the refresh
fails: serve stale, adopt the persisted copy, or surface the error. -/

lemma load_stale_of_refresh_error {l : PolicyServiceLoader} {name : String}
    {entry : Entry} {now : Int} {w : LoadWorld} {e : String}
    (hl : entry.loaded = true)
    (hr : refreshPolicy l name entry w.outcome w.tNow w.r = .error e) :
    LoadPolicy l name entry now w = (.ok entry.module, entry) := by
  unfold LoadPolicy
  by_cases hfresh : entry.loaded = true ∧ now < entry.nextSync
  · rw [if_pos hfresh]
  · rw [if_neg hfresh, hr]
    simp [hl]

lemma load_adopt_persisted {l : PolicyServiceLoader} {name : String}
    {entry : Entry} {now : Int} {w : LoadWorld} {e filename txt : String}
    (hl : entry.loaded = false)
    (hr : refreshPolicy l name entry w.outcome w.tNow w.r = .error e)
    (hk : KeyToFilename name = .ok filename)
    (hp : l.cfg.persist = true)
    (hfs : w.fs (joinPath l.cacheDir filename) = some txt) :
    LoadPolicy l name entry now w =
      (.ok txt,
       { module := txt, etag := "", nextSync := nextInterval l w.tNow w.r,
         loaded := true }) := by
  have hfresh : ¬ (entry.loaded = true ∧ now < entry.nextSync) := by simp [hl]
  unfold LoadPolicy
  rw [if_neg hfresh, hr]
  simp only [hl, Bool.false_eq_true, if_false, hp, if_true]
  unfold readPersistedPolicy
  rw [hk]
  simp [hfs]

lemma load_error_of_no_fallback {l : PolicyServiceLoader} {name : String}
    {entry : Entry} {now : Int} {w : LoadWorld} {e filename : String}
    (hl : entry.loaded = false)
    (hr : refreshPolicy l name entry w.outcome w.tNow w.r = .error e)
    (hk : KeyToFilename name = .ok filename)
    (hcase : l.cfg.persist = false ∨ w.fs (joinPath l.cacheDir filename) = none) :
    LoadPolicy l name entry now w = (.error e, entry) := by
  have hfresh : ¬ (entry.loaded = true ∧ now < entry.nextSync) := by simp [hl]
  unfold LoadPolicy
  rw [if_neg hfresh, hr]
  simp only [hl, Bool.false_eq_true, if_false]
  cases hcase with
  | inl hp => simp [hp]
  | inr hfs =>
    by_cases hp : l.cfg.persist = true
    · simp only [hp, if_true]
      unfold readPersistedPolicy
      rw [hk]
      simp [hfs]
    · simp [hp]

/-- C1: whenever the entry is already loaded and the refresh fails — for any
reason at all (network error, 404, other error status, unreadable body) —
`LoadPolicy` returns the previously cached module text with no error and the
entry, its module text included, is unchanged. -/
theorem loadPolicy_serve_stale (l : PolicyServiceLoader) (name : String)
    (entry : Entry) (now : Int) (w : LoadWorld) (e : String)
    (hl : entry.loaded = true)
    (hr : refreshPolicy l name entry w.outcome w.tNow w.r = .error e) :
    LoadPolicy l name entry now w = (.ok entry.module, entry) :=
  load_stale_of_refresh_error hl hr

/-- Witness for C1 at a concrete input (connection refused on a previously
loaded entry, past its revalidation instant). -/
theorem loadPolicy_serve_stale_witness :
    entryStale.loaded = true ∧
    LoadPolicy loaderA "example" entryStale 60
      ⟨.netError "connection refused", 0, 0, fsNone⟩ = (.ok "cached", entryStale) :=
  ⟨rfl,
   loadPolicy_serve_stale loaderA "example" entryStale 60
     ⟨.netError "connection refused", 0, 0, fsNone⟩
     "failed to download policy example: connection refused" rfl (by rfl)⟩

/-- C2: when the refresh fails on a never-loaded entry, `LoadPolicy` falls
back to the persisted copy: with persistence enabled and the file at the
derived path under the cache directory readable, it returns the file's
contents and sets the entry to that text with `loaded := true`, the
validator token cleared and the next revalidation rescheduled; with
persistence disabled or the read failing, it returns the refresh error and
leaves the entry unchanged. -/
theorem loadPolicy_persisted_fallback (l : PolicyServiceLoader) (name : String)
    (entry : Entry) (now : Int) (w : LoadWorld) (e filename : String)
    (hl : entry.loaded = false)
    (hr : refreshPolicy l name entry w.outcome w.tNow w.r = .error e)
    (hk : KeyToFilename name = .ok filename) :
    (∀ txt, l.cfg.persist = true → w.fs (joinPath l.cacheDir filename) = some txt →
       LoadPolicy l name entry now w =
         (.ok txt,
          { module := txt, etag := "", nextSync := nextInterval l w.tNow w.r,
            loaded := true })) ∧
    (l.cfg.persist = false ∨ w.fs (joinPath l.cacheDir filename) = none →
       LoadPolicy l name entry now w = (.error e, entry)) :=
  ⟨fun _ hp hfs => load_adopt_persisted hl hr hk hp hfs,
   fun hcase => load_error_of_no_fallback hl hr hk hcase⟩

/-- Witness for C2 at a concrete input (unreachable backend, empty entry,
persistence enabled, persisted file present). -/
theorem loadPolicy_persisted_fallback_witness :
    entry0.loaded = false ∧ loaderP.cfg.persist = true ∧
    fsExample (joinPath loaderP.cacheDir "example.rego") = some "persisted text" ∧
    LoadPolicy loaderP "example" entry0 10 ⟨.netError "boom", 7, 3, fsExample⟩ =
      (.ok "persisted text",
       { module := "persisted text", etag := "",
         nextSync := nextInterval loaderP 7 3, loaded := true }) :=
  ⟨rfl, rfl, by rfl,
   (loadPolicy_persisted_fallback loaderP "example" entry0 10
       ⟨.netError "boom", 7, 3, fsExample⟩
       "failed to download policy example: boom" "example.rego"
       rfl (by rfl) (by rfl)).1 "persisted text" rfl (by rfl)⟩

/-- C6: on a 304 Not Modified response, a never-loaded entry makes the
refresh fail, while a loaded entry is treated as success with no change:
only the next revalidation instant is updated (module text and validator
token are untouched) and `LoadPolicy` returns the previously cached text. -/
theorem refresh_not_modified (l : PolicyServiceLoader) (name : String)
    (entry : Entry) (et body : String) (rerr : Bool) (tNow r now : Int)
    (fs₀ : String → Option String) (filename : String)
    (hk : KeyToFilename name = .ok filename) :
    (entry.loaded = false →
       refreshPolicy l name entry (.response 304 et body rerr) tNow r =
         .error "policy not downloaded yet; received 304 Not Modified") ∧
    (entry.loaded = true →
       refreshPolicy l name entry (.response 304 et body rerr) tNow r =
         .ok ({ entry with nextSync := nextInterval l tNow r }, none)) ∧
    (entry.loaded = true → ¬ now < entry.nextSync →
       LoadPolicy l name entry now ⟨.response 304 et body rerr, tNow, r, fs₀⟩ =
         (.ok entry.module, { entry with nextSync := nextInterval l tNow r })) := by
  have h304 : ∀ hload : entry.loaded = true,
      refreshPolicy l name entry (.response 304 et body rerr) tNow r =
        .ok ({ entry with nextSync := nextInterval l tNow r }, none) := by
    intro hload
    unfold refreshPolicy
    rw [hk]
    simp [hload]
  refine ⟨?_, h304, ?_⟩
  · intro hload
    unfold refreshPolicy
    rw [hk]
    simp [hload]
  · intro hload hstale
    have hfresh : ¬ (entry.loaded = true ∧ now < entry.nextSync) := by
      intro hc; exact hstale hc.2
    unfold LoadPolicy
    rw [if_neg hfresh]
    simp only [h304 hload]

/-- Witness for C6 at a concrete input (loaded entry past its revalidation
instant, 304 response). -/
theorem refresh_not_modified_witness :
    entryStale.loaded = true ∧ ¬ (60 : Int) < entryStale.nextSync ∧
    LoadPolicy loaderA "example" entryStale 60
        ⟨.response 304 "v1" "" false, 7, 3, fsNone⟩ =
      (.ok "cached",
       { module := "cached", etag := "v1", nextSync := nextInterval loaderA 7 3,
         loaded := true }) :=
  ⟨rfl, by decide,
   (refresh_not_modified loaderA "example" entryStale "v1" "" false 7 3 60 fsNone
       "example.rego" (by rfl)).2.2 rfl (by decide)⟩

/-- C7: a 404 response fails the refresh with the not-found error (the one
call issues no further request — `refreshPolicy` is called once per
`LoadPolicy`); any other status that is neither 200 nor 304 fails with the
download-failed error carrying the status and the body truncated to 1024
bytes (the error depends on the body only through its first 1024 bytes);
and in both cases a previously loaded entry is still served stale. -/
theorem refresh_notFound_and_error_status (l : PolicyServiceLoader)
    (name : String) (entry : Entry) (et body : String) (rerr : Bool)
    (tNow r now : Int) (fs₀ : String → Option String) (status : Nat)
    (filename : String) (hk : KeyToFilename name = .ok filename) :
    (refreshPolicy l name entry (.response 404 et body rerr) tNow r =
       .error ("policy " ++ name ++ " not found (404)")) ∧
    (status ≠ 304 → status ≠ 404 → status ≠ 200 →
       refreshPolicy l name entry (.response status et body rerr) tNow r =
         .error ("policy download failed: " ++ toString status ++ " "
                   ++ trimSpace (truncateBytes 1024 body))) ∧
    (∀ body', status ≠ 304 → status ≠ 404 → status ≠ 200 →
       truncateBytes 1024 body = truncateBytes 1024 body' →
       refreshPolicy l name entry (.response status et body rerr) tNow r =
         refreshPolicy l name entry (.response status et body' rerr) tNow r) ∧
    (entry.loaded = true →
       LoadPolicy l name entry now ⟨.response 404 et body rerr, tNow, r, fs₀⟩ =
         (.ok entry.module, entry)) ∧
    (entry.loaded = true → status ≠ 304 → status ≠ 404 → status ≠ 200 →
       LoadPolicy l name entry now ⟨.response status et body rerr, tNow, r, fs₀⟩ =
         (.ok entry.module, entry)) := by
  have h404 : refreshPolicy l name entry (.response 404 et body rerr) tNow r =
      .error ("policy " ++ name ++ " not found (404)") := by
    unfold refreshPolicy
    rw [hk]
    simp
  have herr : ∀ b, status ≠ 304 → status ≠ 404 → status ≠ 200 →
      refreshPolicy l name entry (.response status et b rerr) tNow r =
        .error ("policy download failed: " ++ toString status ++ " "
                  ++ trimSpace (truncateBytes 1024 b)) := by
    intro b h1 h2 h3
    unfold refreshPolicy
    rw [hk]
    simp [h1, h2, h3]
  refine ⟨h404, herr body, ?_, ?_, ?_⟩
  · intro body' h1 h2 h3 htr
    rw [herr body h1 h2 h3, herr body' h1 h2 h3, htr]
  · intro hload
    exact load_stale_of_refresh_error hload h404
  · intro hload h1 h2 h3
    exact load_stale_of_refresh_error hload (herr body h1 h2 h3)

set_option maxRecDepth 100000 in
/-- Witness for C7 at concrete inputs (a 404 and a 500 on a loaded entry). -/
theorem refresh_notFound_and_error_status_witness :
    refreshPolicy loaderA "example" entryStale (.response 404 "" "nope" false) 7 3 =
      .error "policy example not found (404)" ∧
    refreshPolicy loaderA "example" entryStale (.response 500 "" " oops " false) 7 3 =
      .error "policy download failed: 500 oops" ∧
    LoadPolicy loaderA "example" entryStale 60
        ⟨.response 500 "" " oops " false, 7, 3, fsNone⟩ =
      (.ok "cached", entryStale) :=
  ⟨(refresh_notFound_and_error_status loaderA "example" entryStale "" "nope"
      false 7 3 60 fsNone 500 "example.rego" (by rfl)).1,
   (refresh_notFound_and_error_status loaderA "example" entryStale "" " oops "
      false 7 3 60 fsNone 500 "example.rego" (by rfl)).2.1
     (by decide) (by decide) (by decide),
   (refresh_notFound_and_error_status loaderA "example" entryStale "" " oops "
      false 7 3 60 fsNone 500 "example.rego" (by rfl)).2.2.2.2
     rfl (by decide) (by decide) (by decide)⟩

set_option maxRecDepth 100000 in
/-- Counterexample to C3 as stated: 201 Created is a 2xx success status, yet
the refresh fails — the code succeeds only on 200 OK (`resp.StatusCode !=
http.StatusOK`), so a 2xx other than 200 produces the download-failed
error instead of storing the body. -/
theorem refresh_2xx_counterexample :
    refreshPolicy loaderA "example" entry0
        (.response 201 "v1" "package x" false) 0 0 =
      .error "policy download failed: 201 package x" := by rfl

/-- C3 (amended to 200 OK): on a 200 response whose body is read without
error, the refresh succeeds — the full body becomes the module text, the
`Etag` header value (possibly empty) becomes the validator token,
`loaded` is set, the next revalidation is rescheduled, and, exactly when
persistence is enabled, the body is written to the derived path under the
cache directory. -/
theorem refresh_ok_200 (l : PolicyServiceLoader) (name : String)
    (entry : Entry) (et body : String) (tNow r : Int) (filename : String)
    (hk : KeyToFilename name = .ok filename) :
    refreshPolicy l name entry (.response 200 et body false) tNow r =
      .ok ({ module := body, etag := et, nextSync := nextInterval l tNow r,
             loaded := true },
           if l.cfg.persist = true then some (joinPath l.cacheDir filename, body)
           else none) := by
  unfold refreshPolicy
  rw [hk]
  simp

/-- Witness for C3 at a concrete input (200 response, persistence enabled). -/
theorem refresh_ok_200_witness :
    refreshPolicy loaderP "example" entry0 (.response 200 "v1" "package x" false) 7 3 =
      .ok ({ module := "package x", etag := "v1",
             nextSync := nextInterval loaderP 7 3, loaded := true },
           if loaderP.cfg.persist = true
           then some (joinPath loaderP.cacheDir "example.rego", "package x")
           else none) :=
  refresh_ok_200 loaderP "example" entry0 "v1" "package x" 7 3 "example.rego" (by rfl)

/-- Counterexample to C8 as stated: a deadline-exceeded request (the network
call fails with a context error) on a previously loaded entry does NOT make
`LoadPolicy` return a cancellation failure — the refresh failure is absorbed
by the serve-stale fallback and the call returns the cached text with no
error. -/
theorem loadPolicy_cancellation_counterexample :
    LoadPolicy loaderA "example" entryStale 60
        ⟨.netError "context deadline exceeded", 0, 0, fsNone⟩ =
      (.ok "cached", entryStale) := by rfl

/-- C8 (amended): a cancelled or deadline-exceeded request makes the network
call fail, which fails the refresh without mutating the entry; `LoadPolicy`
then applies its usual fallbacks — a loaded entry is served stale with no
error and unchanged state, and an unloaded entry with no usable persisted
copy surfaces the failure with the entry unchanged (an unloaded entry with
a readable persisted copy adopts it, as in C2). -/
theorem refresh_cancelled (l : PolicyServiceLoader) (name : String)
    (entry : Entry) (now tNow r : Int) (fs₀ : String → Option String)
    (msg filename : String) (hk : KeyToFilename name = .ok filename) :
    (refreshPolicy l name entry (.netError msg) tNow r =
       .error ("failed to download policy " ++ name ++ ": " ++ msg)) ∧
    (entry.loaded = true →
       LoadPolicy l name entry now ⟨.netError msg, tNow, r, fs₀⟩ =
         (.ok entry.module, entry)) ∧
    (entry.loaded = false →
       l.cfg.persist = false ∨ fs₀ (joinPath l.cacheDir filename) = none →
       LoadPolicy l name entry now ⟨.netError msg, tNow, r, fs₀⟩ =
         (.error ("failed to download policy " ++ name ++ ": " ++ msg), entry)) := by
  have hnet : refreshPolicy l name entry (.netError msg) tNow r =
      .error ("failed to download policy " ++ name ++ ": " ++ msg) := by
    unfold refreshPolicy
    rw [hk]
  exact ⟨hnet, fun hload => load_stale_of_refresh_error hload hnet,
    fun hload hcase => load_error_of_no_fallback hload hnet hk hcase⟩

/-- Witness for C8 at a concrete input (deadline exceeded, never-loaded
entry, persistence disabled). -/
theorem refresh_cancelled_witness :
    entry0.loaded = false ∧ loaderA.cfg.persist = false ∧
    LoadPolicy loaderA "example" entry0 60
        ⟨.netError "context deadline exceeded", 0, 0, fsNone⟩ =
      (.error "failed to download policy example: context deadline exceeded",
       entry0) :=
  ⟨rfl, rfl,
   (refresh_cancelled loaderA "example" entry0 60 0 0 fsNone
       "context deadline exceeded" "example.rego" (by rfl)).2.2 rfl (Or.inl rfl)⟩

/-- C10: `NewPolicyServiceLoader` fails exactly when the service URL is
empty; interval and timeout values are never rejected but normalised — a
non-positive minimum becomes 10 s, a maximum below the (normalised) minimum
is raised to it, a non-positive HTTP timeout becomes 15 s — so every
constructed loader satisfies `0 < pollMin ≤ pollMax` and `0 < httpTimeout`,
and whenever `nextInterval` draws a random offset its `rand.Int63n`
argument `pollMax - pollMin` is positive (the draw never panics on an
empty range). -/
theorem newPolicyServiceLoader_validation (tmpDir : String)
    (cfg : PolicyServiceConfig) :
    (cfg.serviceURL = "" →
       NewPolicyServiceLoader tmpDir cfg = .error "policy service URL is required") ∧
    (cfg.serviceURL ≠ "" → ∃ l : PolicyServiceLoader,
       NewPolicyServiceLoader tmpDir cfg = .ok l ∧
       0 < l.cfg.pollMin ∧ l.cfg.pollMin ≤ l.cfg.pollMax ∧ 0 < l.cfg.httpTimeout ∧
       (cfg.pollMin ≤ 0 → l.cfg.pollMin = 10 * timeSecond) ∧
       (0 < cfg.pollMin → l.cfg.pollMin = cfg.pollMin) ∧
       (cfg.pollMax < l.cfg.pollMin → l.cfg.pollMax = l.cfg.pollMin) ∧
       (l.cfg.pollMin ≤ cfg.pollMax → l.cfg.pollMax = cfg.pollMax) ∧
       (cfg.httpTimeout ≤ 0 → l.cfg.httpTimeout = 15 * timeSecond) ∧
       (0 < cfg.httpTimeout → l.cfg.httpTimeout = cfg.httpTimeout) ∧
       (∀ r : Int, l.cfg.pollMin < l.cfg.pollMax →
          (rand_Int63n (l.cfg.pollMax - l.cfg.pollMin) r).isSome = true)) := by
  constructor
  · intro h
    unfold NewPolicyServiceLoader
    rw [if_pos h]
  · intro h
    unfold NewPolicyServiceLoader
    rw [if_neg h]
    refine ⟨_, rfl, ?_, ?_, ?_, ?_, ?_, ?_, ?_, ?_, ?_, ?_⟩ <;>
      simp only [apply_ite PolicyServiceConfig.pollMin,
        apply_ite PolicyServiceConfig.pollMax,
        apply_ite PolicyServiceConfig.httpTimeout, ite_self, timeSecond] <;>
      first
        | omega
        | (intro hx; omega)
        | (intro r hlt
           unfold rand_Int63n
           rw [if_neg (by omega)]
           rfl)

/-- Witness for C10 at a concrete input (nonempty URL, all of minimum
interval, maximum interval and timeout invalid and hence normalised). -/
theorem newPolicyServiceLoader_validation_witness :
    ({ serviceURL := "http://svc", resourcePfx := "/policies/",
       bearerToken := "", persist := true, cacheDir := "", pollMin := 0,
       pollMax := -5, httpTimeout := 0 } : PolicyServiceConfig).serviceURL ≠ "" ∧
    ∃ l : PolicyServiceLoader,
      NewPolicyServiceLoader "/tmp"
          { serviceURL := "http://svc", resourcePfx := "/policies/",
            bearerToken := "", persist := true, cacheDir := "", pollMin := 0,
            pollMax := -5, httpTimeout := 0 } = .ok l ∧
      0 < l.cfg.pollMin ∧ l.cfg.pollMin ≤ l.cfg.pollMax ∧ 0 < l.cfg.httpTimeout ∧
      ((0 : Int) ≤ 0 → l.cfg.pollMin = 10 * timeSecond) ∧
      ((0 : Int) < 0 → l.cfg.pollMin = 0) ∧
      ((-5 : Int) < l.cfg.pollMin → l.cfg.pollMax = l.cfg.pollMin) ∧
      (l.cfg.pollMin ≤ -5 → l.cfg.pollMax = -5) ∧
      ((0 : Int) ≤ 0 → l.cfg.httpTimeout = 15 * timeSecond) ∧
      ((0 : Int) < 0 → l.cfg.httpTimeout = 0) ∧
      (∀ r : Int, l.cfg.pollMin < l.cfg.pollMax →
         (rand_Int63n (l.cfg.pollMax - l.cfg.pollMin) r).isSome = true) :=
  ⟨by decide,
   (newPolicyServiceLoader_validation "/tmp"
       { serviceURL := "http://svc", resourcePfx := "/policies/",
         bearerToken := "", persist := true, cacheDir := "", pollMin := 0,
         pollMax := -5, httpTimeout := 0 }).2 (by decide)⟩

end OpaLambda
